import Mathlib

/-!
Shallow embedding of `src/main.py` of the rtsp-timelapse daemon.

The program periodically captures frames from an RTSP stream, assembles
them into 24 fps / 60 fps time-lapse videos, notifies configured Apprise
endpoints, and (weekly) cleans up the screenshot directory.

Modelling conventions:
* `datetime.time` values become `TimeOfDay` (hour, minute, second; Python's
  microsecond field is not exercised by the program's comparisons at the
  granularity the settings use).  Python compares `time` values
  lexicographically on their fields, which for in-range fields coincides
  with comparison of the second-of-day count used here.
* `datetime.datetime` values become `Nat` seconds since 1970-01-01 00:00:00
  (the representable range of wall-clock values the daemon can observe).
* The external effects (ffmpeg runs, apprise notifications, logging) are
  recorded as an `Event` trace; success or failure of each ffmpeg assembly
  run is an oracle `Bool` argument.
* The screenshot directory is a `List Entry` of named entries flagged as
  regular files or not; `Path.unlink(missing_ok=...)` becomes `unlink`.
-/

/-- Model of `datetime.time`: a time of day. -/
structure TimeOfDay where
  hour : Nat
  minute : Nat
  second : Nat
deriving Repr, DecidableEq

/-- Seconds since midnight; Python's field-lexicographic comparison of
in-range `datetime.time` values coincides with comparison of this count. -/
def TimeOfDay.toSec (t : TimeOfDay) : Nat :=
  t.hour * 3600 + t.minute * 60 + t.second

/-- `a <= b` on `datetime.time` values. -/
def TimeOfDay.le (a b : TimeOfDay) : Bool :=
  decide (a.toSec ≤ b.toSec)

/-- `a < b` on `datetime.time` values. -/
def TimeOfDay.lt (a b : TimeOfDay) : Bool :=
  decide (a.toSec < b.toSec)

/-- The `Settings` object of `main.py` (pydantic `BaseSettings`).
`rtsp_url` is kept abstract as its textual form; `data_path` is the
storage root as a string. -/
structure Settings where
  rtsp_url : String
  screenshot_interval : Nat := 5
  timelapse_generation_time : TimeOfDay := ⟨0, 0, 0⟩
  timelapse_crf : Nat := 28
  skip_time_start : Option TimeOfDay := none
  skip_time_end : Option TimeOfDay := none
  data_path : String := "./data"
  logging_level : String := "INFO"
  apprise_servers : Option String := none
deriving Repr, DecidableEq

/-- `self.skip_time_start is not None and self.skip_time_end is not None
and self.skip_time_start > self.skip_time_end` (second validator check). -/
def Settings.skipStartAfterEnd (s : Settings) : Bool :=
  match s.skip_time_start, s.skip_time_end with
  | some a, some b => TimeOfDay.lt b a
  | _, _ => false

/-- The `check_skip_time_range` model validator: raises `ValueError`
(modelled as `Except.error`) when exactly one bound is set, or when both
are set with start after end; otherwise returns the settings unchanged. -/
def check_skip_time_range (s : Settings) : Except String Settings :=
  if (s.skip_time_start.isNone && s.skip_time_end.isSome)
      || (s.skip_time_end.isNone && s.skip_time_start.isSome) then
    Except.error "Both start and end have to be defined to properly skip time"
  else if s.skipStartAfterEnd then
    Except.error "Start cannot be after end"
  else
    Except.ok s

/-- Observable actions of a job run: ffmpeg invocations, log lines,
apprise notifications. -/
inductive Event where
  | captureFrame
  | assembleVideo (framerate : Nat) (output : String)
  | logInfo (msg : String)
  | logException (msg : String)
  | notifySent (title : String) (attach : String)
deriving Repr, DecidableEq, BEq

/-- The skip condition of `take_screenshot` (lines 112-116):
both bounds set and `skip_time_start <= now <= skip_time_end`. -/
def skipScreenshot (s : Settings) (now : TimeOfDay) : Bool :=
  match s.skip_time_start, s.skip_time_end with
  | some a, some b => TimeOfDay.le a now && TimeOfDay.le now b
  | _, _ => false

/-- `take_screenshot`: skip (with a log line) inside the skip window,
otherwise run ffmpeg to capture one frame; a capture failure is logged
and swallowed.  `captureOk` is the oracle for the ffmpeg run. -/
def take_screenshot (s : Settings) (now : TimeOfDay) (captureOk : Bool) :
    List Event :=
  if skipScreenshot s now then
    [Event.logInfo "skipping screenshot"]
  else if captureOk then
    [Event.captureFrame, Event.logInfo "took screenshot"]
  else
    [Event.captureFrame, Event.logException "failed to take screenshot"]

/-- Is an event a frame-capture attempt? -/
def isCaptureEvent : Event → Bool
  | Event.captureFrame => true
  | _ => false

/-- Does the event trace contain a frame-capture attempt? -/
def capturesFrame (evs : List Event) : Bool :=
  evs.any isCaptureEvent

/-- An entry of the screenshots directory (`Path.iterdir` item):
a name and whether it is a regular file (`Path.is_file`). -/
structure Entry where
  name : String
  is_file : Bool
deriving Repr, DecidableEq

/-- `Path.unlink(missing_ok=...)`: remove the entry with the given name;
with `missing_ok` a missing name is silently tolerated, otherwise it is a
`FileNotFoundError`. -/
def unlink (missing_ok : Bool) (name : String) (fs : List Entry) :
    Except String (List Entry) :=
  if fs.any (fun e => e.name == name) then
    Except.ok (fs.filter (fun e => e.name != name))
  else if missing_ok then
    Except.ok fs
  else
    Except.error "FileNotFoundError"

/-- The cleanup loop of `send_timelapse` (lines 205-209): iterate over a
directory snapshot, skip non-regular entries, unlink regular files with
`missing_ok=True`.  The snapshot is kept separate from the live directory
state `fs` so that files disappearing between listing and deletion are
representable. -/
def cleanupImages (snapshot : List Entry) (fs : List Entry) :
    Except String (List Entry) :=
  match snapshot with
  | [] => Except.ok fs
  | e :: rest =>
    if e.is_file then
      match unlink true e.name fs with
      | Except.ok fs2 => cleanupImages rest fs2
      | Except.error msg => Except.error msg
    else
      cleanupImages rest fs

/-- Truthiness of `settings.apprise_servers` (an optional string):
`None` and the empty string are falsy. -/
def hasAppriseServers (s : Settings) : Bool :=
  match s.apprise_servers with
  | some str => str != ""
  | none => false

/-- Gregorian leap year. -/
def isLeapYear (y : Nat) : Bool :=
  y % 4 == 0 && (y % 100 != 0 || y % 400 == 0)

/-- Days in a Gregorian month. -/
def daysInMonth (y m : Nat) : Nat :=
  if m = 2 then (if isLeapYear y then 29 else 28)
  else if m = 4 || m = 6 || m = 9 || m = 11 then 30
  else 31

/-- A Gregorian calendar date. -/
structure Date where
  year : Nat
  month : Nat
  day : Nat
deriving Repr, DecidableEq

/-- Successor date in the Gregorian calendar. -/
def nextDay (d : Date) : Date :=
  if d.day < daysInMonth d.year d.month then ⟨d.year, d.month, d.day + 1⟩
  else if d.month < 12 then ⟨d.year, d.month + 1, 1⟩
  else ⟨d.year + 1, 1, 1⟩

/-- Date reached `n` days after 1970-01-01 (the calendar conversion
behind `datetime`'s date components). -/
def dateFromDays (n : Nat) : Date :=
  nextDay^[n] ⟨1970, 1, 1⟩

/-- The decimal digit character for `n` (ASCII `'0' + n`). -/
def digitChar (n : Nat) : Char :=
  Char.ofNat (48 + n)

/-- `n` rendered as exactly `w` decimal digit characters, most significant
first (zero padded), faithful for `n < 10 ^ w`. -/
def padDigits : Nat → Nat → List Char
  | 0, _ => []
  | w + 1, n => digitChar (n / 10 ^ w) :: padDigits w (n % 10 ^ w)

/-- The characters of `strftime("%Y-%m-%d_%H-%M-%S")` for a timestamp of
`t` seconds since 1970-01-01 00:00:00. -/
def fmtChars (t : Nat) : List Char :=
  padDigits 4 (dateFromDays (t / 86400)).year
    ++ '-' :: (padDigits 2 (dateFromDays (t / 86400)).month
    ++ '-' :: (padDigits 2 (dateFromDays (t / 86400)).day
    ++ '_' :: (padDigits 2 (t % 86400 / 3600)
    ++ '-' :: (padDigits 2 (t % 86400 % 3600 / 60)
    ++ '-' :: padDigits 2 (t % 86400 % 60)))))

/-- `dt.strftime("%Y-%m-%d_%H-%M-%S")` as a string. -/
def fmtDateTime (t : Nat) : String :=
  (fmtChars t).asString

/-- `SCREENSHOT_PATH = settings.data_path / "screenshots"` rendered as a
string (path join modelled as plain concatenation with `/`). -/
def SCREENSHOT_PATH (s : Settings) : String :=
  s.data_path ++ "/screenshots"

/-- `TIMELAPSE_PATH = settings.data_path / "timelapses"`. -/
def TIMELAPSE_PATH (s : Settings) : String :=
  s.data_path ++ "/timelapses"

/-- The offset `timedelta(hours=gen.hour, minutes=gen.minute)` applied by
`image_filename`, in seconds.  Note the code reads only the hour and
minute fields of the configured generation time. -/
def genTimeOffset (t : TimeOfDay) : Nat :=
  t.hour * 3600 + t.minute * 60

/-- `image_filename()`: the capture target path.  If the configured
generation time differs from `datetime.time(0, 0)`, its hours and minutes
are subtracted from the current time before formatting. -/
def image_filename (s : Settings) (now : Nat) : String :=
  let dt := if s.timelapse_generation_time ≠ TimeOfDay.mk 0 0 0 then
      now - genTimeOffset s.timelapse_generation_time
    else now
  SCREENSHOT_PATH s ++ "/" ++ fmtDateTime dt ++ ".jpg"

/-- `timelapse_filename(framerate, week)`: the assembly target path. -/
def timelapse_filename (s : Settings) (now : Nat) (framerate : Nat)
    (week : Bool) : String :=
  let dt := fmtDateTime now
  if week then
    TIMELAPSE_PATH s ++ "/" ++ dt ++ "_fps_" ++ toString framerate ++ "_week.mp4"
  else
    TIMELAPSE_PATH s ++ "/" ++ dt ++ "_fps_" ++ toString framerate ++ ".mp4"

/-- `generate_timelapse(week)`: run the 24 fps assembly, aborting the run
(logging the failure, returning `None`) if it fails; then likewise the
60 fps assembly; on full success return both output paths.  `ok24` and
`ok60` are the oracles for the two ffmpeg runs. -/
def generate_timelapse (s : Settings) (now : Nat) (week : Bool)
    (ok24 ok60 : Bool) : List Event × Option (String × String) :=
  let fps_24 := timelapse_filename s now 24 week
  let fps_60 := timelapse_filename s now 60 week
  if ok24 = false then
    ([Event.logInfo "generating timelapses", Event.assembleVideo 24 fps_24,
      Event.logException "failed to generate 24fps timelapse"], none)
  else if ok60 = false then
    ([Event.logInfo "generating timelapses", Event.assembleVideo 24 fps_24,
      Event.assembleVideo 60 fps_60,
      Event.logException "failed to generate 60fps timelapse"], none)
  else
    ([Event.logInfo "generating timelapses", Event.assembleVideo 24 fps_24,
      Event.assembleVideo 60 fps_60], some (fps_24, fps_60))

/-- `send_timelapse(week)`: generate both time-lapses, returning early if
generation failed; otherwise notify each configured endpoint twice (24 and
60 fps, each with its own title suffix and attachment) when
`apprise_servers` is truthy; for weekly runs, clean up the screenshot
directory afterwards.  Returns the event trace and the resulting
screenshot directory state. -/
def send_timelapse (s : Settings) (now : Nat) (week : Bool)
    (ok24 ok60 : Bool) (fs : List Entry) :
    Except String (List Event × List Entry) :=
  match generate_timelapse s now week ok24 ok60 with
  | (genEvents, none) => Except.ok (genEvents, fs)
  | (genEvents, some (fps_24, fps_60)) =>
    let title := if week then "Weekly RTSP Timelapse" else "Daily RTSP Timelapse"
    let notifyEvents :=
      if hasAppriseServers s then
        [Event.logInfo "sending notification",
         Event.notifySent (title ++ " (24 FPS)") fps_24,
         Event.notifySent (title ++ " (60 FPS)") fps_60]
      else []
    if week then
      match cleanupImages fs fs with
      | Except.ok fs2 =>
        Except.ok (genEvents ++ notifyEvents ++ [Event.logInfo "cleaned up images"], fs2)
      | Except.error msg => Except.error msg
    else
      Except.ok (genEvents ++ notifyEvents, fs)

/-- Is an event an apprise notification? -/
def isNotifyEvent : Event → Bool
  | Event.notifySent _ _ => true
  | _ => false

/-- Is an event an ffmpeg assembly run at the given framerate? -/
def isAssembleAt (framerate : Nat) : Event → Bool
  | Event.assembleVideo f _ => f == framerate
  | _ => false

/-- Is an event a logged exception (`log.exception`)? -/
def isFailureLog : Event → Bool
  | Event.logException _ => true
  | _ => false

/-- State visible to the runtime loop of `run_schedule`: the cooperative
stop flag owned by `SignalHandler`. -/
structure LoopState where
  stop : Bool
deriving Repr, DecidableEq

/-- The SIGTERM handler installed by `SignalHandler.__enter__`: it sets
the stop flag (and does nothing else). -/
def signalHandler (st : LoopState) : LoopState :=
  { st with stop := true }

/-- One iteration of the `while True` loop: first check the stop flag and
exit (`none`, running nothing) if it is set; otherwise
`schedule.run_pending()` runs the due jobs, producing their events. -/
def tick (st : LoopState) (due : List Event) :
    Option (LoopState × List Event) :=
  if st.stop then none else some (st, due)

/-- The runtime loop, driven for `fuel` ticks with `dues n` the jobs due
at tick `n`; collects all events of jobs that actually ran. -/
def runLoop : Nat → LoopState → (Nat → List Event) → List Event
  | 0, _, _ => []
  | fuel + 1, st, dues =>
    match tick st (dues 0) with
    | none => []
    | some (st2, evs) => evs ++ runLoop fuel st2 (fun n => dues (n + 1))
/-! ### Helper lemmas about the cleanup loop -/

theorem unlink_true_eq (name : String) (fs : List Entry) :
    unlink true name fs = Except.ok (fs.filter (fun e => e.name != name)) := by
  unfold unlink
  split
  · rfl
  · next h =>
    rw [if_pos (by trivial)]
    have heq : fs.filter (fun e => e.name != name) = fs := by
      apply List.filter_eq_self.mpr
      intro e he
      simp only [List.any_eq_true, beq_iff_eq] at h
      push_neg at h
      simpa [bne] using h e he
    rw [heq]

theorem cleanupImages_cons_file (x : Entry) (rest fs : List Entry)
    (hx : x.is_file = true) :
    cleanupImages (x :: rest) fs
      = cleanupImages rest (fs.filter (fun e => e.name != x.name)) := by
  rw [cleanupImages, if_pos hx, unlink_true_eq]

theorem cleanupImages_cons_nonfile (x : Entry) (rest fs : List Entry)
    (hx : x.is_file = false) :
    cleanupImages (x :: rest) fs = cleanupImages rest fs := by
  rw [cleanupImages, if_neg (by rw [hx]; exact Bool.false_ne_true)]

theorem cleanupImages_eq (snapshot fs : List Entry) :
    cleanupImages snapshot fs = Except.ok (fs.filter
      (fun e => !(snapshot.any (fun x => x.is_file && x.name == e.name)))) := by
  induction snapshot generalizing fs with
  | nil => simp [cleanupImages]
  | cons x rest ih =>
    cases hx : x.is_file with
    | false =>
      rw [cleanupImages_cons_nonfile x rest fs hx, ih]
      congr 1
      apply List.filter_congr
      intro e _
      simp [hx]
    | true =>
      rw [cleanupImages_cons_file x rest fs hx, ih, List.filter_filter]
      congr 1
      apply List.filter_congr
      intro e _
      cases hname : x.name == e.name with
      | false =>
        have hname2 : (e.name == x.name) = false := by
          cases h2 : e.name == x.name
          · rfl
          · rw [beq_iff_eq] at h2
            rw [h2] at hname
            simp at hname
        simp [hx, hname, bne, hname2]
      | true =>
        simp [hx, hname, bne, beq_iff_eq.mp hname]

theorem cleanupImages_ok (snapshot fs : List Entry) :
    ∃ fs2, cleanupImages snapshot fs = Except.ok fs2 :=
  ⟨_, cleanupImages_eq snapshot fs⟩

theorem cleanupImages_self (fs : List Entry)
    (h : (fs.map Entry.name).Nodup) :
    cleanupImages fs fs = Except.ok (fs.filter (fun e => !e.is_file)) := by
  rw [cleanupImages_eq]
  congr 1
  apply List.filter_congr
  intro e he
  cases hef : e.is_file with
  | true =>
    have hany : fs.any (fun x => x.is_file && x.name == e.name) = true := by
      refine List.any_eq_true.mpr ⟨e, he, ?_⟩
      simp [hef]
    simp [hany, hef]
  | false =>
    have hany : fs.any (fun x => x.is_file && x.name == e.name) = false := by
      rw [List.any_eq_false]
      intro x hxmem
      simp only [Bool.and_eq_true, beq_iff_eq, not_and]
      intro hxf hxname
      have hxe : x = e := List.inj_on_of_nodup_map h hxmem he hxname
      rw [hxe, hef] at hxf
      exact absurd hxf (by simp)
    simp [hany, hef]

/-! ### Claim theorems: skip window and settings validation -/

/-- C1: when both skip-window bounds are configured with start ≤ end, the
capture job skips taking a screenshot (no frame-capture attempt appears in
its trace) iff start ≤ now ≤ end, with both boundaries inclusive; when the
skip-window is unset, the capture job never skips. -/
theorem skip_window_iff (s : Settings) (now : TimeOfDay) (ok : Bool) :
    (∀ a b, s.skip_time_start = some a → s.skip_time_end = some b →
      TimeOfDay.le a b = true →
      (capturesFrame (take_screenshot s now ok) = false ↔
        (TimeOfDay.le a now = true ∧ TimeOfDay.le now b = true)))
    ∧ ((s.skip_time_start = none ∨ s.skip_time_end = none) →
      capturesFrame (take_screenshot s now ok) = true) := by
  constructor
  · intro a b ha hb _hab
    have hskip : skipScreenshot s now = (TimeOfDay.le a now && TimeOfDay.le now b) := by
      rw [skipScreenshot, ha, hb]
    cases hcond : TimeOfDay.le a now && TimeOfDay.le now b with
    | true =>
      rw [take_screenshot, if_pos (hskip.trans hcond)]
      simp only [capturesFrame, List.any_cons, List.any_nil, isCaptureEvent,
        Bool.or_false]
      constructor
      · intro _
        exact Bool.and_eq_true _ _ ▸ hcond
      · intro _
        trivial
    | false =>
      rw [take_screenshot, if_neg (by rw [hskip, hcond]; exact Bool.false_ne_true)]
      have hcap : capturesFrame (if ok = true then
          [Event.captureFrame, Event.logInfo "took screenshot"]
          else [Event.captureFrame, Event.logException "failed to take screenshot"])
          = true := by
        cases ok <;> simp [capturesFrame, isCaptureEvent]
      rw [hcap]
      constructor
      · intro h
        exact absurd h (by simp)
      · intro h
        rw [h.1, h.2] at hcond
        simp at hcond
  · intro h
    have hskip : skipScreenshot s now = false := by
      rcases h with h | h
      · rw [skipScreenshot, h]
      · rw [skipScreenshot, h]
        cases s.skip_time_start <;> rfl
    rw [take_screenshot, if_neg (by rw [hskip]; exact Bool.false_ne_true)]
    cases ok <;> simp [capturesFrame, isCaptureEvent]

/-- Witness for C1 at a concrete configuration: window 08:00–10:00,
current time exactly the start boundary, where the job skips. -/
theorem skip_window_iff_witness :
    capturesFrame (take_screenshot
      { rtsp_url := "rtsp://cam", skip_time_start := some ⟨8, 0, 0⟩,
        skip_time_end := some ⟨10, 0, 0⟩ } ⟨8, 0, 0⟩ true) = false := by
  have h := (skip_window_iff
    { rtsp_url := "rtsp://cam", skip_time_start := some ⟨8, 0, 0⟩,
      skip_time_end := some ⟨10, 0, 0⟩ } ⟨8, 0, 0⟩ true).1
    ⟨8, 0, 0⟩ ⟨10, 0, 0⟩ rfl rfl (by decide)
  exact h.mpr ⟨by decide, by decide⟩

/-- C9: for a hypothetical skip-window crossing midnight (start strictly
after end), the skip-window check is false at every time of day. -/
theorem skip_window_midnight_always_false (s : Settings) (a b : TimeOfDay)
    (ha : s.skip_time_start = some a) (hb : s.skip_time_end = some b)
    (hgt : TimeOfDay.lt b a = true) (now : TimeOfDay) :
    skipScreenshot s now = false := by
  rw [skipScreenshot, ha, hb]
  show (TimeOfDay.le a now && TimeOfDay.le now b) = false
  simp only [TimeOfDay.lt, decide_eq_true_eq] at hgt
  cases h1 : TimeOfDay.le a now with
  | false => rw [Bool.false_and]
  | true =>
    cases h2 : TimeOfDay.le now b with
    | false => rw [Bool.true_and]
    | true =>
      simp only [TimeOfDay.le, decide_eq_true_eq] at h1 h2
      omega

/-- Witness for C9: window 22:00–02:00 (crossing midnight) does not skip
at 23:00, even though that time lies inside the intended wrapped window. -/
theorem skip_window_midnight_always_false_witness :
    skipScreenshot
      { rtsp_url := "rtsp://cam", skip_time_start := some ⟨22, 0, 0⟩,
        skip_time_end := some ⟨2, 0, 0⟩ } ⟨23, 0, 0⟩ = false :=
  skip_window_midnight_always_false
    { rtsp_url := "rtsp://cam", skip_time_start := some ⟨22, 0, 0⟩,
      skip_time_end := some ⟨2, 0, 0⟩ }
    ⟨22, 0, 0⟩ ⟨2, 0, 0⟩ rfl rfl (by decide) ⟨23, 0, 0⟩

/-- C7: settings validation rejects (raises) exactly when one skip-window
bound is set without the other, or both are set with start strictly after
end; it accepts both-absent and both-present with start ≤ end (equality
included). -/
theorem settings_validation_iff (s : Settings) :
    ((∃ msg, check_skip_time_range s = Except.error msg) ↔
      (s.skip_time_start.isSome ≠ s.skip_time_end.isSome
        ∨ ∃ a b, s.skip_time_start = some a ∧ s.skip_time_end = some b
            ∧ TimeOfDay.lt b a = true))
    ∧ (s.skip_time_start = none → s.skip_time_end = none →
        check_skip_time_range s = Except.ok s)
    ∧ (∀ a b, s.skip_time_start = some a → s.skip_time_end = some b →
        TimeOfDay.le a b = true → check_skip_time_range s = Except.ok s) := by
  refine ⟨?_, ?_, ?_⟩
  · cases h1 : s.skip_time_start with
    | none =>
      cases h2 : s.skip_time_end with
      | none =>
        rw [check_skip_time_range]
        rw [if_neg (by simp [h1, h2])]
        rw [if_neg (by rw [Settings.skipStartAfterEnd, h1]; exact Bool.false_ne_true)]
        simp [h1, h2]
      | some b =>
        rw [check_skip_time_range, if_pos (by simp [h1, h2])]
        simp [h1, h2]
    | some a =>
      cases h2 : s.skip_time_end with
      | none =>
        rw [check_skip_time_range, if_pos (by simp [h1, h2])]
        simp [h1, h2]
      | some b =>
        rw [check_skip_time_range, if_neg (by simp [h1, h2])]
        have hsae : s.skipStartAfterEnd = TimeOfDay.lt b a := by
          rw [Settings.skipStartAfterEnd, h1, h2]
        cases hlt : TimeOfDay.lt b a with
        | true =>
          rw [if_pos (hsae.trans hlt)]
          constructor
          · intro _
            exact Or.inr ⟨a, b, rfl, rfl, hlt⟩
          · intro _
            exact ⟨_, rfl⟩
        | false =>
          rw [if_neg (by rw [hsae, hlt]; exact Bool.false_ne_true)]
          constructor
          · rintro ⟨msg, hmsg⟩
            exact absurd hmsg (by simp)
          · rintro (h | ⟨a', b', ha', hb', hlt'⟩)
            · simp at h
            · injection ha' with ea
              injection hb' with eb
              rw [ea, eb, hlt'] at hlt
              simp at hlt
  · intro h1 h2
    rw [check_skip_time_range, if_neg (by simp [h1, h2])]
    rw [if_neg (by rw [Settings.skipStartAfterEnd, h1]; exact Bool.false_ne_true)]
  · intro a b h1 h2 hle
    rw [check_skip_time_range, if_neg (by simp [h1, h2])]
    have hsae : s.skipStartAfterEnd = TimeOfDay.lt b a := by
      rw [Settings.skipStartAfterEnd, h1, h2]
    have hlt : TimeOfDay.lt b a = false := by
      simp only [TimeOfDay.le, decide_eq_true_eq] at hle
      simp only [TimeOfDay.lt, decide_eq_false_iff_not]
      omega
    rw [if_neg (by rw [hsae, hlt]; exact Bool.false_ne_true)]

/-- Witness for C7: a configuration with start = end = 05:00 is accepted,
and one with only the start bound set is rejected. -/
theorem settings_validation_iff_witness :
    check_skip_time_range
      { rtsp_url := "rtsp://cam", skip_time_start := some ⟨5, 0, 0⟩,
        skip_time_end := some ⟨5, 0, 0⟩ }
      = Except.ok
      { rtsp_url := "rtsp://cam", skip_time_start := some ⟨5, 0, 0⟩,
        skip_time_end := some ⟨5, 0, 0⟩ }
    ∧ (∃ msg, check_skip_time_range
        { rtsp_url := "rtsp://cam", skip_time_start := some ⟨5, 0, 0⟩ }
        = Except.error msg) :=
  ⟨(settings_validation_iff _).2.2 ⟨5, 0, 0⟩ ⟨5, 0, 0⟩ rfl rfl (by decide),
   (settings_validation_iff
      { rtsp_url := "rtsp://cam", skip_time_start := some ⟨5, 0, 0⟩ }).1.mpr
    (Or.inl (by decide))⟩

/-! ### Unfolding equations for the assembly run -/

theorem generate_timelapse_fail24 (s : Settings) (now : Nat) (week ok60 : Bool) :
    generate_timelapse s now week false ok60 =
      ([Event.logInfo "generating timelapses",
        Event.assembleVideo 24 (timelapse_filename s now 24 week),
        Event.logException "failed to generate 24fps timelapse"], none) := rfl

theorem generate_timelapse_fail60 (s : Settings) (now : Nat) (week : Bool) :
    generate_timelapse s now week true false =
      ([Event.logInfo "generating timelapses",
        Event.assembleVideo 24 (timelapse_filename s now 24 week),
        Event.assembleVideo 60 (timelapse_filename s now 60 week),
        Event.logException "failed to generate 60fps timelapse"], none) := rfl

theorem generate_timelapse_ok (s : Settings) (now : Nat) (week : Bool) :
    generate_timelapse s now week true true =
      ([Event.logInfo "generating timelapses",
        Event.assembleVideo 24 (timelapse_filename s now 24 week),
        Event.assembleVideo 60 (timelapse_filename s now 60 week)],
       some (timelapse_filename s now 24 week, timelapse_filename s now 60 week)) := rfl

theorem send_timelapse_fail24_eq (s : Settings) (now : Nat) (week ok60 : Bool)
    (fs : List Entry) :
    send_timelapse s now week false ok60 fs =
      Except.ok ([Event.logInfo "generating timelapses",
        Event.assembleVideo 24 (timelapse_filename s now 24 week),
        Event.logException "failed to generate 24fps timelapse"], fs) := rfl

theorem send_timelapse_fail60_eq (s : Settings) (now : Nat) (week : Bool)
    (fs : List Entry) :
    send_timelapse s now week true false fs =
      Except.ok ([Event.logInfo "generating timelapses",
        Event.assembleVideo 24 (timelapse_filename s now 24 week),
        Event.assembleVideo 60 (timelapse_filename s now 60 week),
        Event.logException "failed to generate 60fps timelapse"], fs) := rfl

/-- The notification events of a successful run, as a function of the
configured apprise servers. -/
def notifyTrace (s : Settings) (now : Nat) (week : Bool) : List Event :=
  if hasAppriseServers s = true then
    [Event.logInfo "sending notification",
     Event.notifySent
       ((if week then "Weekly RTSP Timelapse" else "Daily RTSP Timelapse")
         ++ " (24 FPS)") (timelapse_filename s now 24 week),
     Event.notifySent
       ((if week then "Weekly RTSP Timelapse" else "Daily RTSP Timelapse")
         ++ " (60 FPS)") (timelapse_filename s now 60 week)]
  else []

theorem send_timelapse_ok_daily_eq (s : Settings) (now : Nat)
    (fs : List Entry) :
    send_timelapse s now false true true fs =
      Except.ok (Event.logInfo "generating timelapses"
        :: Event.assembleVideo 24 (timelapse_filename s now 24 false)
        :: Event.assembleVideo 60 (timelapse_filename s now 60 false)
        :: notifyTrace s now false, fs) := rfl

theorem send_timelapse_ok_week_eq (s : Settings) (now : Nat)
    (fs fs2 : List Entry) (h : cleanupImages fs fs = Except.ok fs2) :
    send_timelapse s now true true true fs =
      Except.ok (Event.logInfo "generating timelapses"
        :: Event.assembleVideo 24 (timelapse_filename s now 24 true)
        :: Event.assembleVideo 60 (timelapse_filename s now 60 true)
        :: (notifyTrace s now true ++ [Event.logInfo "cleaned up images"]),
        fs2) := by
  have step : send_timelapse s now true true true fs =
      (match cleanupImages fs fs with
        | Except.ok fs3 =>
          Except.ok (Event.logInfo "generating timelapses"
            :: Event.assembleVideo 24 (timelapse_filename s now 24 true)
            :: Event.assembleVideo 60 (timelapse_filename s now 60 true)
            :: (notifyTrace s now true ++ [Event.logInfo "cleaned up images"]),
            fs3)
        | Except.error msg => Except.error msg) := rfl
  rw [step, h]

/-! ### Claim theorems: assembly runs, notifications, weekly cleanup -/

/-- C2: if the 24 fps assembly fails, the run aborts: the 60 fps assembly
is not attempted, the failure is logged, no notification is sent, and the
screenshot directory is untouched. -/
theorem assembly_short_circuit (s : Settings) (now : Nat) (week ok60 : Bool)
    (fs : List Entry) :
    ∃ evs, send_timelapse s now week false ok60 fs = Except.ok (evs, fs)
      ∧ evs.any isFailureLog = true
      ∧ evs.all (fun e => !isAssembleAt 60 e) = true
      ∧ evs.all (fun e => !isNotifyEvent e) = true := by
  refine ⟨_, send_timelapse_fail24_eq s now week ok60 fs, ?_, ?_, ?_⟩
  · simp [isFailureLog]
  · simp [isAssembleAt]
  · simp [isNotifyEvent]

/-- C3: notifications are all-or-nothing: the notification events of a run
are exactly the two rate-specific ones (24 FPS and 60 FPS title suffixes,
each with its own attachment) iff both assemblies succeeded and an apprise
endpoint string is configured, and otherwise there are none. -/
theorem notifications_all_or_nothing (s : Settings) (now : Nat)
    (week ok24 ok60 : Bool) (fs : List Entry) :
    ∃ evs fs2, send_timelapse s now week ok24 ok60 fs = Except.ok (evs, fs2)
      ∧ evs.filter isNotifyEvent =
        (if ok24 && ok60 && hasAppriseServers s then
          [Event.notifySent
            ((if week then "Weekly RTSP Timelapse" else "Daily RTSP Timelapse")
              ++ " (24 FPS)") (timelapse_filename s now 24 week),
           Event.notifySent
            ((if week then "Weekly RTSP Timelapse" else "Daily RTSP Timelapse")
              ++ " (60 FPS)") (timelapse_filename s now 60 week)]
        else []) := by
  cases ok24 with
  | false =>
    refine ⟨_, _, send_timelapse_fail24_eq s now week ok60 fs, ?_⟩
    simp [isNotifyEvent]
  | true =>
    cases ok60 with
    | false =>
      refine ⟨_, _, send_timelapse_fail60_eq s now week fs, ?_⟩
      simp [isNotifyEvent]
    | true =>
      cases week with
      | false =>
        refine ⟨_, _, send_timelapse_ok_daily_eq s now fs, ?_⟩
        cases happ : hasAppriseServers s <;>
          simp [notifyTrace, happ, isNotifyEvent]
      | true =>
        refine ⟨_, _, send_timelapse_ok_week_eq s now fs _
          (cleanupImages_eq fs fs), ?_⟩
        cases happ : hasAppriseServers s <;>
          simp [notifyTrace, happ, isNotifyEvent]

/-- C4: a successful weekly run deletes every regular file directly under
the screenshots directory and leaves non-regular entries untouched; the
cleanup loop never fails whatever files have disappeared since listing
(`missing_ok=True`); and an empty screenshots directory is handled without
failure. -/
theorem weekly_cleanup_deletes_files (s : Settings) (now : Nat) :
    (∀ fs : List Entry, (fs.map Entry.name).Nodup →
      ∃ evs, send_timelapse s now true true true fs
        = Except.ok (evs, fs.filter (fun e => !e.is_file)))
    ∧ (∀ snapshot fs : List Entry, ∃ fs2,
        cleanupImages snapshot fs = Except.ok fs2)
    ∧ (∃ evs, send_timelapse s now true true true []
        = Except.ok (evs, [])) := by
  refine ⟨?_, cleanupImages_ok, ?_⟩
  · intro fs hnodup
    exact ⟨_, send_timelapse_ok_week_eq s now fs _ (cleanupImages_self fs hnodup)⟩
  · exact ⟨_, send_timelapse_ok_week_eq s now [] [] (by rfl)⟩

/-- Witness for C4 on a concrete directory with one regular file and one
subdirectory: the file is removed, the subdirectory remains. -/
theorem weekly_cleanup_deletes_files_witness :
    ∃ evs, send_timelapse { rtsp_url := "rtsp://cam" } 0 true true true
        [⟨"2024-01-01_00-00-00.jpg", true⟩, ⟨"sub", false⟩]
      = Except.ok (evs, [⟨"sub", false⟩]) := by
  have h := (weekly_cleanup_deletes_files { rtsp_url := "rtsp://cam" } 0).1
    [⟨"2024-01-01_00-00-00.jpg", true⟩, ⟨"sub", false⟩] (by decide)
  simpa using h

/-- C8: weekly cleanup is atomic with respect to assembly failure: if
either assembly pass fails, `send_timelapse` returns with the screenshots
directory unchanged; after both weekly assemblies succeed the regular
files are deleted, whether or not notification endpoints are configured
(the settings, including `apprise_servers`, are arbitrary here). -/
theorem weekly_cleanup_atomic (s : Settings) (now : Nat) (ok24 ok60 : Bool)
    (fs : List Entry) :
    ((ok24 = false ∨ ok60 = false) →
      ∃ evs, send_timelapse s now true ok24 ok60 fs = Except.ok (evs, fs))
    ∧ (ok24 = true → ok60 = true → (fs.map Entry.name).Nodup →
      ∃ evs, send_timelapse s now true ok24 ok60 fs
        = Except.ok (evs, fs.filter (fun e => !e.is_file))) := by
  constructor
  · rintro (h | h)
    · subst h
      exact ⟨_, send_timelapse_fail24_eq s now true ok60 fs⟩
    · subst h
      cases ok24 with
      | false => exact ⟨_, send_timelapse_fail24_eq s now true false fs⟩
      | true => exact ⟨_, send_timelapse_fail60_eq s now true fs⟩
  · intro h24 h60 hnodup
    subst h24
    subst h60
    exact ⟨_, send_timelapse_ok_week_eq s now fs _ (cleanupImages_self fs hnodup)⟩

/-- Witness for C8: a weekly run whose 60 fps pass fails leaves the
directory unchanged. -/
theorem weekly_cleanup_atomic_witness :
    ∃ evs, send_timelapse { rtsp_url := "rtsp://cam" } 0 true true false
        [⟨"a.jpg", true⟩]
      = Except.ok (evs, [⟨"a.jpg", true⟩]) :=
  (weekly_cleanup_atomic { rtsp_url := "rtsp://cam" } 0 true false
    [⟨"a.jpg", true⟩]).1 (Or.inr rfl)

/-! ### Claim theorems: stop flag and runtime loop -/

/-- C6: the SIGTERM handler sets the stop flag; no loop transition ever
resets it; the loop checks the flag before dispatching pending jobs on a
tick, so once the flag is observed the loop exits at once and no further
job produces any event. -/
theorem stop_flag_safety :
    (∀ st : LoopState, (signalHandler st).stop = true)
    ∧ (∀ (st st2 : LoopState) (due evs : List Event),
        tick st due = some (st2, evs) → st2.stop = st.stop)
    ∧ (∀ (st : LoopState) (due : List Event),
        st.stop = true → tick st due = none)
    ∧ (∀ (fuel : Nat) (st : LoopState) (dues : Nat → List Event),
        st.stop = true → runLoop fuel st dues = []) := by
  refine ⟨fun st => rfl, ?_, ?_, ?_⟩
  · intro st st2 due evs h
    rw [tick] at h
    split at h
    · exact absurd h (by simp)
    · cases h
      rfl
  · intro st due h
    rw [tick, if_pos h]
  · intro fuel st dues h
    cases fuel with
    | zero => rfl
    | succ f =>
      rw [runLoop, tick, if_pos h]

/-- Witness for C6: after the handler fires, a loop given fuel and pending
jobs executes none of them. -/
theorem stop_flag_safety_witness :
    runLoop 3 (signalHandler ⟨false⟩) (fun _ => [Event.captureFrame]) = [] :=
  stop_flag_safety.2.2.2 3 (signalHandler ⟨false⟩)
    (fun _ => [Event.captureFrame]) (stop_flag_safety.1 ⟨false⟩)

/-! ### Digit rendering lemmas -/

theorem padDigits_length (w n : Nat) : (padDigits w n).length = w := by
  induction w generalizing n with
  | zero => rfl
  | succ w ih => simp [padDigits, ih]

theorem digitChar_lt {a b : Nat} (hab : a < b) (hb : b ≤ 9) :
    digitChar a < digitChar b := by
  have ha : a ≤ 9 := by omega
  interval_cases a <;> interval_cases b <;> decide

theorem digitChar_isDigit {a : Nat} (ha : a ≤ 9) :
    (digitChar a).isDigit = true := by
  interval_cases a <;> decide

theorem padDigits_all_isDigit {w n : Nat} (h : n < 10 ^ w) :
    (padDigits w n).all Char.isDigit = true := by
  induction w generalizing n with
  | zero => rfl
  | succ w ih =>
    have hq : n / 10 ^ w ≤ 9 := by
      have h10 : 0 < 10 ^ w := Nat.pos_pow_of_pos w (by omega)
      have hps : (10 : Nat) ^ (w + 1) = 10 ^ w * 10 := pow_succ 10 w
      have := (Nat.div_lt_iff_lt_mul h10).mpr (show n < 10 * 10 ^ w by omega)
      omega
    have hr : n % 10 ^ w < 10 ^ w :=
      Nat.mod_lt _ (Nat.pos_pow_of_pos w (by omega))
    simp [padDigits, digitChar_isDigit hq, ih hr]

theorem padDigits_lex {w a b : Nat} (hab : a < b) (hb : b < 10 ^ w) :
    List.Lex (· < ·) (padDigits w a) (padDigits w b) := by
  induction w generalizing a b with
  | zero => omega
  | succ w ih =>
    have h10 : 0 < 10 ^ w := Nat.pos_pow_of_pos w (by omega)
    have hbq : b / 10 ^ w ≤ 9 := by
      have hps : (10 : Nat) ^ (w + 1) = 10 ^ w * 10 := pow_succ 10 w
      have := (Nat.div_lt_iff_lt_mul h10).mpr (show b < 10 * 10 ^ w by omega)
      omega
    have hq : a / 10 ^ w ≤ b / 10 ^ w := Nat.div_le_div_right (Nat.le_of_lt hab)
    rcases Nat.lt_or_ge (a / 10 ^ w) (b / 10 ^ w) with hlt | hge
    · exact List.Lex.rel (digitChar_lt hlt hbq)
    · have heq : a / 10 ^ w = b / 10 ^ w := by omega
      have har : a % 10 ^ w < b % 10 ^ w := by
        have ha' := Nat.div_add_mod a (10 ^ w)
        have hb' := Nat.div_add_mod b (10 ^ w)
        rw [← heq] at hb'
        omega
      have hbr : b % 10 ^ w < 10 ^ w := Nat.mod_lt _ h10
      show List.Lex (· < ·)
        (digitChar (a / 10 ^ w) :: padDigits w (a % 10 ^ w))
        (digitChar (b / 10 ^ w) :: padDigits w (b % 10 ^ w))
      rw [heq]
      exact List.Lex.cons (ih har hbr)

theorem lex_append_of_length_eq {l1 l2 t1 t2 : List Char}
    (hlen : l1.length = l2.length) (h : List.Lex (· < ·) l1 l2) :
    List.Lex (· < ·) (l1 ++ t1) (l2 ++ t2) := by
  induction h with
  | nil => simp at hlen
  | rel hr => exact List.Lex.rel hr
  | cons h ih =>
    exact List.Lex.cons (ih (by simpa using hlen))

theorem lex_block {w a b : Nat} (c : Char) {r1 r2 : List Char}
    (hb : b < 10 ^ w)
    (h : a < b ∨ (a = b ∧ List.Lex (· < ·) r1 r2)) :
    List.Lex (· < ·) (padDigits w a ++ c :: r1) (padDigits w b ++ c :: r2) := by
  rcases h with hlt | ⟨heq, hr⟩
  · exact lex_append_of_length_eq
      ((padDigits_length w a).trans (padDigits_length w b).symm)
      (padDigits_lex hlt hb)
  · subst heq
    exact List.Lex.append_left _ (List.Lex.cons hr) _

/-! ### Calendar monotonicity lemmas -/

/-- Field ranges `datetime` guarantees for a date. -/
def DateValid (d : Date) : Prop :=
  1 ≤ d.month ∧ d.month ≤ 12 ∧ 1 ≤ d.day ∧ d.day ≤ 31

theorem daysInMonth_le_31 (y m : Nat) : daysInMonth y m ≤ 31 := by
  rw [daysInMonth]
  split
  · split <;> omega
  · split <;> omega

theorem nextDay_valid {d : Date} (h : DateValid d) : DateValid (nextDay d) := by
  obtain ⟨h1, h2, h3, h4⟩ := h
  have h31 := daysInMonth_le_31 d.year d.month
  rw [nextDay]
  split
  · next hlt =>
    exact ⟨h1, h2, show 1 ≤ d.day + 1 by omega, show d.day + 1 ≤ 31 by omega⟩
  · split
    · next hm =>
      exact ⟨show 1 ≤ d.month + 1 by omega, show d.month + 1 ≤ 12 by omega,
        Nat.le_refl 1, show (1 : Nat) ≤ 31 by omega⟩
    · exact ⟨Nat.le_refl 1, show (1 : Nat) ≤ 12 by omega,
        Nat.le_refl 1, show (1 : Nat) ≤ 31 by omega⟩

theorem dateFromDays_valid (n : Nat) : DateValid (dateFromDays n) := by
  induction n with
  | zero => exact ⟨Nat.le_refl 1, by decide, Nat.le_refl 1, by decide⟩
  | succ n ih =>
    rw [dateFromDays, Function.iterate_succ_apply']
    exact nextDay_valid ih

/-- Strict lexicographic order on (year, month, day). -/
def dateLt (a b : Date) : Prop :=
  a.year < b.year ∨ (a.year = b.year ∧
    (a.month < b.month ∨ (a.month = b.month ∧ a.day < b.day)))

theorem nextDay_dateLt (d : Date) : dateLt d (nextDay d) := by
  rw [nextDay]
  split
  · exact Or.inr ⟨rfl, Or.inr ⟨rfl, show d.day < d.day + 1 by omega⟩⟩
  · split
    · exact Or.inr ⟨rfl, Or.inl (show d.month < d.month + 1 by omega)⟩
    · exact Or.inl (show d.year < d.year + 1 by omega)

theorem dateLt_trans {a b c : Date} (h1 : dateLt a b) (h2 : dateLt b c) :
    dateLt a c := by
  rcases h1 with h1 | ⟨e1, h1⟩ <;> rcases h2 with h2 | ⟨e2, h2⟩
  · exact Or.inl (by omega)
  · exact Or.inl (by omega)
  · exact Or.inl (by omega)
  · refine Or.inr ⟨by omega, ?_⟩
    rcases h1 with h1 | ⟨f1, h1⟩ <;> rcases h2 with h2 | ⟨f2, h2⟩
    · exact Or.inl (by omega)
    · exact Or.inl (by omega)
    · exact Or.inl (by omega)
    · exact Or.inr ⟨by omega, by omega⟩

theorem iterate_nextDay_dateLt (k : Nat) (d : Date) :
    dateLt d (nextDay^[k + 1] d) := by
  induction k with
  | zero => simpa using nextDay_dateLt d
  | succ k ih =>
    rw [Function.iterate_succ_apply']
    exact dateLt_trans ih (nextDay_dateLt _)

theorem dateFromDays_lt {m n : Nat} (h : m < n) :
    dateLt (dateFromDays m) (dateFromDays n) := by
  have hsplit : n = (n - m - 1 + 1) + m := by omega
  rw [dateFromDays, dateFromDays, hsplit, Function.iterate_add_apply]
  exact iterate_nextDay_dateLt (n - m - 1) (nextDay^[m] ⟨1970, 1, 1⟩)

theorem dateFromDays_year_mono {m n : Nat} (h : m ≤ n) :
    (dateFromDays m).year ≤ (dateFromDays n).year := by
  rcases Nat.lt_or_ge m n with hlt | hge
  · rcases dateFromDays_lt hlt with hy | ⟨hy, _⟩ <;> omega
  · have : m = n := by omega
    rw [this]

theorem fmtChars_length (t : Nat) : (fmtChars t).length = 19 := by
  simp only [fmtChars, List.length_append, List.length_cons, padDigits_length]

theorem fmtChars_lex {t1 t2 : Nat} (h : t1 < t2)
    (hy : (dateFromDays (t2 / 86400)).year ≤ 9999) :
    List.Lex (· < ·) (fmtChars t1) (fmtChars t2) := by
  obtain ⟨hm2lo, hm2hi, hd2lo, hd2hi⟩ := dateFromDays_valid (t2 / 86400)
  have hdays : t1 / 86400 ≤ t2 / 86400 := Nat.div_le_div_right (Nat.le_of_lt h)
  rw [fmtChars, fmtChars]
  rcases Nat.lt_or_ge (t1 / 86400) (t2 / 86400) with hdlt | hdge
  · have hdate := dateFromDays_lt hdlt
    apply lex_block '-' (Nat.lt_of_le_of_lt hy (by decide))
    rcases hdate with hy2 | ⟨hyeq, hrest⟩
    · exact Or.inl hy2
    · refine Or.inr ⟨hyeq, ?_⟩
      apply lex_block '-' (Nat.lt_of_le_of_lt hm2hi (by decide))
      rcases hrest with hm2 | ⟨hmeq, hd2⟩
      · exact Or.inl hm2
      · refine Or.inr ⟨hmeq, ?_⟩
        apply lex_block '_' (Nat.lt_of_le_of_lt hd2hi (by decide))
        exact Or.inl hd2
  · have heq : t1 / 86400 = t2 / 86400 := by omega
    rw [heq]
    apply lex_block '-' (Nat.lt_of_le_of_lt hy (by decide))
    refine Or.inr ⟨rfl, ?_⟩
    apply lex_block '-' (Nat.lt_of_le_of_lt hm2hi (by decide))
    refine Or.inr ⟨rfl, ?_⟩
    apply lex_block '_' (Nat.lt_of_le_of_lt hd2hi (by decide))
    refine Or.inr ⟨rfl, ?_⟩
    have hhour2 : t2 % 86400 / 3600 ≤ 23 := by omega
    apply lex_block '-' (Nat.lt_of_le_of_lt hhour2 (by decide))
    rcases (show t1 % 86400 / 3600 < t2 % 86400 / 3600
        ∨ (t1 % 86400 / 3600 = t2 % 86400 / 3600
          ∧ (t1 % 86400 % 3600 / 60 < t2 % 86400 % 3600 / 60
            ∨ (t1 % 86400 % 3600 / 60 = t2 % 86400 % 3600 / 60
              ∧ t1 % 86400 % 60 < t2 % 86400 % 60))) by omega)
      with hh | ⟨hheq, hmin⟩
    · exact Or.inl hh
    · refine Or.inr ⟨hheq, ?_⟩
      have hmin2 : t2 % 86400 % 3600 / 60 ≤ 59 := by omega
      apply lex_block '-' (Nat.lt_of_le_of_lt hmin2 (by decide))
      rcases hmin with hmm | ⟨hmmeq, hss⟩
      · exact Or.inl hmm
      · refine Or.inr ⟨hmmeq, ?_⟩
        have hsec2 : t2 % 86400 % 60 ≤ 59 := by omega
        exact padDigits_lex hss (Nat.lt_of_le_of_lt hsec2 (by decide))

theorem fmt_filename_le (s : Settings) {u1 u2 : Nat} (h : u1 ≤ u2)
    (hy : (dateFromDays (u2 / 86400)).year ≤ 9999) :
    (SCREENSHOT_PATH s ++ "/" ++ fmtDateTime u1 ++ ".jpg" : String)
      ≤ SCREENSHOT_PATH s ++ "/" ++ fmtDateTime u2 ++ ".jpg" := by
  rcases Nat.eq_or_lt_of_le h with heq | hlt
  · subst heq
    exact le_refl _
  · apply le_of_lt
    rw [String.lt_iff_toList_lt]
    have hto : ∀ u : Nat, (SCREENSHOT_PATH s ++ "/" ++ fmtDateTime u ++ ".jpg").toList
        = (SCREENSHOT_PATH s ++ "/").toList ++ (fmtChars u ++ ".jpg".toList) := by
      intro u
      show (SCREENSHOT_PATH s ++ "/" ++ fmtDateTime u ++ ".jpg").data
        = (SCREENSHOT_PATH s ++ "/").data ++ (fmtChars u ++ ".jpg".data)
      rw [String.data_append, String.data_append, List.append_assoc]
      rfl
    rw [hto u1, hto u2]
    exact List.Lex.append_left _ (lex_append_of_length_eq
      ((fmtChars_length u1).trans (fmtChars_length u2).symm)
      (fmtChars_lex hlt hy)) _

/-! ### Claim theorems: capture filename format and monotonicity -/

/-- C5: the capture filename is the screenshots directory joined with a
`YYYY-MM-DD_HH-MM-SS.jpg` timestamp: formatted from `now` unchanged when
the configured generation time equals 00:00, and from `now` minus the
generation time's hours and minutes otherwise; the formatted part is six
fixed-width decimal fields separated by `-`, `-`, `_`, `-`, `-`. -/
theorem image_filename_spec (s : Settings) (now : Nat) :
    (s.timelapse_generation_time = TimeOfDay.mk 0 0 0 →
      image_filename s now = SCREENSHOT_PATH s ++ "/" ++ fmtDateTime now ++ ".jpg")
    ∧ (s.timelapse_generation_time ≠ TimeOfDay.mk 0 0 0 →
      image_filename s now = SCREENSHOT_PATH s ++ "/"
        ++ fmtDateTime (now - genTimeOffset s.timelapse_generation_time) ++ ".jpg")
    ∧ (∃ yc mc dc hc nc sc : List Char,
        yc.length = 4 ∧ mc.length = 2 ∧ dc.length = 2 ∧ hc.length = 2
        ∧ nc.length = 2 ∧ sc.length = 2
        ∧ fmtChars now
            = yc ++ '-' :: (mc ++ '-' :: (dc ++ '_' :: (hc ++ '-' :: (nc ++ '-' :: sc))))
        ∧ ((dateFromDays (now / 86400)).year ≤ 9999 →
            yc.all Char.isDigit = true ∧ mc.all Char.isDigit = true
            ∧ dc.all Char.isDigit = true ∧ hc.all Char.isDigit = true
            ∧ nc.all Char.isDigit = true ∧ sc.all Char.isDigit = true)) := by
  refine ⟨?_, ?_, ?_⟩
  · intro hg
    simp only [image_filename]
    rw [if_neg (fun hne => hne hg)]
  · intro hg
    simp only [image_filename]
    rw [if_pos hg]
  · obtain ⟨hmlo, hmhi, hdlo, hdhi⟩ := dateFromDays_valid (now / 86400)
    refine ⟨padDigits 4 (dateFromDays (now / 86400)).year,
      padDigits 2 (dateFromDays (now / 86400)).month,
      padDigits 2 (dateFromDays (now / 86400)).day,
      padDigits 2 (now % 86400 / 3600),
      padDigits 2 (now % 86400 % 3600 / 60),
      padDigits 2 (now % 86400 % 60),
      padDigits_length 4 _, padDigits_length 2 _, padDigits_length 2 _,
      padDigits_length 2 _, padDigits_length 2 _, padDigits_length 2 _,
      rfl, ?_⟩
    intro hy
    have hhour : now % 86400 / 3600 ≤ 23 := by omega
    have hmin : now % 86400 % 3600 / 60 ≤ 59 := by omega
    have hsec : now % 86400 % 60 ≤ 59 := by omega
    exact ⟨padDigits_all_isDigit (Nat.lt_of_le_of_lt hy (by decide)),
      padDigits_all_isDigit (Nat.lt_of_le_of_lt hmhi (by decide)),
      padDigits_all_isDigit (Nat.lt_of_le_of_lt hdhi (by decide)),
      padDigits_all_isDigit (Nat.lt_of_le_of_lt hhour (by decide)),
      padDigits_all_isDigit (Nat.lt_of_le_of_lt hmin (by decide)),
      padDigits_all_isDigit (Nat.lt_of_le_of_lt hsec (by decide))⟩

/-- Witness for C5: with the default 00:00 generation time the timestamp
is unshifted; with a 01:30 generation time the offset is subtracted. -/
theorem image_filename_spec_witness :
    image_filename { rtsp_url := "rtsp://cam" } 90000
        = SCREENSHOT_PATH { rtsp_url := "rtsp://cam" } ++ "/"
          ++ fmtDateTime 90000 ++ ".jpg"
    ∧ image_filename
        { rtsp_url := "rtsp://cam", timelapse_generation_time := ⟨1, 30, 0⟩ } 90000
        = SCREENSHOT_PATH
            { rtsp_url := "rtsp://cam", timelapse_generation_time := ⟨1, 30, 0⟩ }
          ++ "/" ++ fmtDateTime (90000 - genTimeOffset ⟨1, 30, 0⟩) ++ ".jpg" :=
  ⟨(image_filename_spec { rtsp_url := "rtsp://cam" } 90000).1 rfl,
   (image_filename_spec
      { rtsp_url := "rtsp://cam", timelapse_generation_time := ⟨1, 30, 0⟩ }
      90000).2.1 (by decide)⟩

/-- C10: for fixed settings the capture filename is monotonically
non-decreasing in lexicographic string order as the wall clock advances
(over the `datetime`-representable range, i.e. years up to 9999). -/
theorem capture_filename_monotone (s : Settings) (t1 t2 : Nat) (h12 : t1 ≤ t2)
    (hmax : (dateFromDays (t2 / 86400)).year ≤ 9999) :
    image_filename s t1 ≤ image_filename s t2 := by
  simp only [image_filename]
  by_cases hgen : s.timelapse_generation_time ≠ TimeOfDay.mk 0 0 0
  · rw [if_pos hgen, if_pos hgen]
    refine fmt_filename_le s (Nat.sub_le_sub_right h12 _) ?_
    exact le_trans
      (dateFromDays_year_mono (Nat.div_le_div_right (Nat.sub_le t2 _))) hmax
  · rw [if_neg hgen, if_neg hgen]
    exact fmt_filename_le s h12 hmax

/-- Witness for C10 at two concrete times a day apart. -/
theorem capture_filename_monotone_witness :
    image_filename { rtsp_url := "rtsp://cam" } 100000
      ≤ image_filename { rtsp_url := "rtsp://cam" } 200000 :=
  capture_filename_monotone { rtsp_url := "rtsp://cam" } 100000 200000
    (by decide) (by decide)
